import Mathlib

/-!
Verification development for the hand-tracking host shell
(`src/HandController.tsx` and the host application root).

The definitions below are a shallow embedding of the program:
pure computations become Lean functions, the stateful React
lifecycle becomes explicit state records and step functions, and
the browser event loop becomes explicit event traces folded over
a state.  Coordinates are embedded as rationals (`ℚ`); JavaScript
exceptions become `Except`/`Option` results.
-/

/-- One tracked landmark of a detected hand (MediaPipe gives normalized
coordinates; only `x` and `y` are read by the program). -/
structure Landmark where
  x : ℚ
  y : ℚ
deriving DecidableEq, Repr

/-- The per-frame result object handed to `onResults` by the vision engine:
`multiHandLandmarks` is either absent (`none`) or a list of hands, each a
list of landmarks. -/
structure HandResults where
  multiHandLandmarks : Option (List (List Landmark))
deriving DecidableEq, Repr

/-- The control signal passed to the `onInput` callback:
`onInput(x, isActive)` in `src/HandController.tsx`. -/
structure ControlSignal where
  x : ℚ
  active : Bool
deriving DecidableEq, Repr

/-- Embedding of `onResults` (`src/HandController.tsx` lines 132-181),
restricted to its input-signal effect: the `onInput` call it makes, if any.
`canvasPresent` models `canvasRef.current` being non-null with a usable 2d
context; when it is absent the handler returns before reaching `onInput`.
With a canvas, a non-empty `multiHandLandmarks` selects hand `[0]`; if its
landmark `[9]` exists the handler emits `((1 - x) - 0.5) * 2` with
`isActive = true`, and if landmark `[9]` is missing the guarded block is
skipped and no `onInput` call happens at all.  An absent or empty
`multiHandLandmarks` takes the `else` branch and emits `(0, false)`. -/
def onResultsEmit (canvasPresent : Bool) (results : HandResults) : Option ControlSignal :=
  if canvasPresent = false then none
  else
    match results.multiHandLandmarks with
    | some (landmarks :: _) =>
        match landmarks[9]? with
        | some lm => some ⟨((1 - lm.x) - 0.5) * 2, true⟩
        | none => none
    | some [] => some ⟨0, false⟩
    | none => some ⟨0, false⟩

/-- The narrative report exchanged with the guest.  The JavaScript object
has fields `archetype`, `match`, `narrative`; `match` is a Lean keyword,
so that field is embedded as `matchName`. -/
structure Report where
  archetype : String
  matchName : String
  narrative : String
deriving DecidableEq, Repr

/-- A message the host posts to the guest iframe via
`contentWindow.postMessage`, as a tagged value. -/
inductive SentMsg where
  | pauseGame (paused : Bool)
  | inputUpdate (x : ℚ) (isActive : Bool)
  | reportGenerated (report : Report)
deriving DecidableEq, Repr

/-- Embedding of `handleHandInput` (host root, lines 378-382): posts an
`INPUT_UPDATE` message to the guest iframe when `iframeRef.current` and its
`contentWindow` exist, and does nothing otherwise.  `guestPresent` models
that existence check; the result is the list of messages actually posted. -/
def handleHandInput (guestPresent : Bool) (sig : ControlSignal) : List SentMsg :=
  if guestPresent then [SentMsg.inputUpdate sig.x sig.active] else []

/-- External actions on the capture device performed by the camera-state
effect of `HandController`: creating + starting a new `window.Camera`, or
stopping the current one. -/
inductive CameraAction where
  | createAndStart
  | stop
deriving DecidableEq, Repr

/-- The mutable context of a mounted `HandController`, as read by the
camera-state effect (lines 99-130): whether the scripts finished loading,
whether `handsRef.current` / `videoRef.current` / `cameraRef.current` are
non-null, and the `isActive` prop.  The rendered canvas element exists
exactly when `isActive` is true, because the component body returns `null`
when `isActive` is false (line 183). -/
structure HCState where
  scriptsLoaded : Bool
  hands : Bool
  video : Bool
  camera : Bool
  isActive : Bool
deriving DecidableEq, Repr

/-- Embedding of the camera-management effect (`src/HandController.tsx`
lines 99-130).  Returns the updated context together with the list of
device actions performed.  Guard order follows the source: the effect
bails out if scripts are not loaded or `handsRef`/`videoRef` are null;
when `isActive` it creates and starts a camera only if none exists (and
`window.Camera` is available, modelled by `windowCamera`); when inactive
it stops and clears the camera only if one exists. -/
def cameraEffect (windowCamera : Bool) (s : HCState) : HCState × List CameraAction :=
  if !s.scriptsLoaded || !s.hands || !s.video then (s, [])
  else if s.isActive then
    if !s.camera && windowCamera then
      ({ s with camera := true }, [CameraAction.createAndStart])
    else (s, [])
  else
    if s.camera then ({ s with camera := false }, [CameraAction.stop])
    else (s, [])

/-- Deactivating the tracking session: the `isActive` prop becomes false,
React commits the render (the component returns `null`, unmounting the
canvas), and then the camera effect runs with the new flag. -/
def deactivate (windowCamera : Bool) (s : HCState) : HCState × List CameraAction :=
  cameraEffect windowCamera { s with isActive := false }

/-- The input messages a single per-frame `onResults` callback causes the
host to post to the guest, in a given component context: the canvas is
mounted exactly when `isActive` is true, and any emitted signal is
forwarded through `handleHandInput`. -/
def frameMessages (guestPresent : Bool) (s : HCState) (results : HandResults) :
    List SentMsg :=
  match onResultsEmit s.isActive results with
  | some sig => handleHandInput guestPresent sig
  | none => []

/-- The three MediaPipe module URLs loaded by `initScripts`
(`src/HandController.tsx` lines 49-51), in source order. -/
def SCRIPT_URLS : List String :=
  ["https://cdn.jsdelivr.net/npm/@mediapipe/camera_utils/camera_utils.js",
   "https://cdn.jsdelivr.net/npm/@mediapipe/drawing_utils/drawing_utils.js",
   "https://cdn.jsdelivr.net/npm/@mediapipe/hands/hands.js"]

/-- One run of `initScripts` as a task on the event loop: `pc` counts how
many of the three sequential `await loadScript(...)` steps have resolved,
and `waiting` is the URL whose `onload` the task is currently awaiting,
if any.  `pc = SCRIPT_URLS.length` with no pending wait means the whole
chain has resolved (and `setScriptsLoaded(true)` fires). -/
structure TaskState where
  pc : Nat
  waiting : Option String
deriving DecidableEq, Repr

/-- The shared browser state seen by every concurrent `initScripts` run:
`tags` is the list of `<script src=...>` elements appended to
`document.head` (what `document.querySelector` inspects), `loaded` the
subset whose `onload` has fired, and `tasks` the in-flight runs. -/
structure LoaderState where
  tags : List String
  loaded : List String
  tasks : List TaskState
deriving DecidableEq, Repr

/-- Scheduler step for task `i`: if the task is not blocked and its next
URL remains, run `loadScript` for it (`src/HandController.tsx` lines
32-45): when a script tag with that `src` already exists the promise
resolves immediately (the task advances without waiting); otherwise a new
script element is appended and the task blocks until the `onload` of that URL. -/
def stepTask (s : LoaderState) (i : Nat) : LoaderState :=
  match s.tasks[i]? with
  | none => s
  | some t =>
    if t.waiting.isSome then s
    else
      match SCRIPT_URLS[t.pc]? with
      | none => s
      | some u =>
        if u ∈ s.tags then
          { s with tasks := s.tasks.set i { t with pc := t.pc + 1 } }
        else
          { s with tags := s.tags ++ [u],
                   tasks := s.tasks.set i { t with waiting := some u } }

/-- The browser finishes fetching URL `u`: its `onload` fires (once, and
only for a script element actually in the document), recording the URL as
loaded and resuming every task awaiting it. -/
def onloadEvent (s : LoaderState) (u : String) : LoaderState :=
  if u ∈ s.tags ∧ u ∉ s.loaded then
    { s with loaded := s.loaded ++ [u],
             tasks := s.tasks.map fun t =>
               if t.waiting = some u then { pc := t.pc + 1, waiting := none } else t }
  else s

/-- An event-loop event: either the scheduler resumes task `i`, or the
network finishes loading URL `u`. -/
inductive LoadEvent where
  | step (i : Nat)
  | onload (u : String)
deriving DecidableEq, Repr

/-- Run a trace of event-loop events from a loader state. -/
def runLoader : List LoadEvent → LoaderState → LoaderState
  | [], s => s
  | LoadEvent.step i :: es, s => runLoader es (stepTask s i)
  | LoadEvent.onload u :: es, s => runLoader es (onloadEvent s u)

/-- The initial browser state with a single fresh `initScripts` run. -/
def loaderInit1 : LoaderState := ⟨[], [], [⟨0, none⟩]⟩

/-- The initial browser state with two concurrent fresh `initScripts`
runs (two mounts of the component racing on a shared document). -/
def loaderInit2 : LoaderState := ⟨[], [], [⟨0, none⟩, ⟨0, none⟩]⟩

/-- The pause flag sent to the guest (host root, line 273):
`const isPaused = showModal || showRemix`. -/
def computeIsPaused (showModal showRemix : Bool) : Bool := showModal || showRemix

/-- State of the debounced pause sync (host root, lines 271-283): at most
one scheduled `setTimeout(syncGameState, 100)` (its due time and the pause
value it will send), plus the messages posted to the guest so far. -/
structure PauseState where
  pending : Option (Nat × Bool)
  sent : List SentMsg
deriving DecidableEq, Repr

/-- A scheduled timer whose due time has been reached fires: the
`syncGameState` callback posts `PAUSE_GAME` to the guest if its iframe
`contentWindow` exists, and otherwise posts nothing. -/
def firePending (guestPresent : Bool) (now : Nat) (s : PauseState) : PauseState :=
  match s.pending with
  | some (due, v) =>
      if due ≤ now then
        { pending := none,
          sent := s.sent ++ if guestPresent then [SentMsg.pauseGame v] else [] }
      else s
  | none => s

/-- A `HostUIState` change at time `now` with new pause value `paused`:
a timer already due has fired beforehand; the effect cleanup then runs
`clearTimeout` on any still-pending timer and schedules a fresh
`setTimeout(syncGameState, 100)` carrying the new value (lines 279-283). -/
def uiChange (guestPresent : Bool) (now : Nat) (paused : Bool) (s : PauseState) :
    PauseState :=
  let s1 := firePending guestPresent now s
  { s1 with pending := some (now + 100, paused) }

/-- Fold a time-ordered list of `(time, pauseValue)` UI changes over the
debounce state. -/
def runPauseChanges (guestPresent : Bool) : List (Nat × Bool) → PauseState → PauseState
  | [], s => s
  | (t, v) :: cs, s => runPauseChanges guestPresent cs (uiChange guestPresent t v s)

/-- After the last UI change, enough time passes for any still-scheduled
timer to fire. -/
def flushPause (guestPresent : Bool) (s : PauseState) : PauseState :=
  match s.pending with
  | some (_, v) =>
      { pending := none,
        sent := s.sent ++ if guestPresent then [SentMsg.pauseGame v] else [] }
  | none => s

/-- The debounce state before any UI change: no timer scheduled, nothing
sent. -/
def pauseInit : PauseState := ⟨none, []⟩

/-- The five career metrics embedded in the analysis prompt
(`data.metrics` of the `GAME_OVER` payload). -/
structure Metrics where
  inst : Int
  net : Int
  acad : Int
  hist : Int
  disc : Int
deriving DecidableEq, Repr

/-- One timeline entry of the `GAME_OVER` payload (`data.timeline[i]`). -/
structure TimelineEvent where
  event : String
deriving DecidableEq, Repr

/-- The artifact counters of the `GAME_OVER` payload (`data.artifacts`). -/
structure Artifacts where
  t1 : Int
  t2 : Int
  t3 : Int
deriving DecidableEq, Repr

/-- The raw, guest-supplied `GAME_OVER` payload as the host actually reads
it: each top-level field may be absent (`none` models a missing or
undefined property on the untrusted object). -/
structure RawPayload where
  metrics : Option Metrics
  timeline : Option (List TimelineEvent)
  artifacts : Option Artifacts
deriving DecidableEq, Repr

/-- JavaScript `tl[i]?.event || \x27Unknown\x27`: a missing element, or an
empty (falsy) event string, both read as `"Unknown"`. -/
def timelineEventOr (e : Option TimelineEvent) : String :=
  match e with
  | some ev => if ev.event = "" then "Unknown" else ev.event
  | none => "Unknown"

/-- JavaScript `data.artifacts?.f || 0`: a missing artifacts object reads
as `0` (and a stored `0` also reads as `0`). -/
def artifactOr (a : Option Artifacts) (f : Artifacts → Int) : Int :=
  match a with
  | some x => f x
  | none => 0

/-- The prompt text produced by `generateAnalysisPrompt` once all member
accesses have succeeded (host root, lines 214-254), with the payload
fields interpolated. -/
def analysisPromptText (m : Metrics) (tl : List TimelineEvent)
    (a : Option Artifacts) : String :=
  "\n**ROLE:** Elite Art Historian & Chief Curator.\n" ++
  "**TASK:** Generate a definitive \"Curatorial Record\" for a virtual artist based on their career data.\n\n" ++
  "**INPUT DATA (The Artist\x27s Journey):**\n" ++
  "1. **The Metrics (0-100):**\n" ++
  "   - Institutional Authority: " ++ toString m.inst ++ " (Did they succeed in the museum world?)\n" ++
  "   - Network Velocity: " ++ toString m.net ++ " (Did they dominate the market?)\n" ++
  "   - Academic Depth: " ++ toString m.acad ++ " (Did they contribute theory?)\n" ++
  "   - Historical Weight: " ++ toString m.hist ++ " (Will they be remembered?)\n" ++
  "   - Discourse/Scandal: " ++ toString m.disc ++ " (Were they controversial?)\n\n" ++
  "2. **The Timeline (Critical Choices):**\n" ++
  "   - Age 20s (Origin): " ++ timelineEventOr tl[0]? ++ "\n" ++
  "   - Age 40s (Pivot): " ++ timelineEventOr tl[1]? ++ "\n" ++
  "   - Age 60s (Legacy): " ++ timelineEventOr tl[2]? ++ "\n\n" ++
  "3. **The Work (Artifacts Collected):**\n" ++
  "   - Masterpieces (Tier 1): " ++ toString (artifactOr a Artifacts.t1) ++ "\n" ++
  "   - Commercial Works (Tier 2): " ++ toString (artifactOr a Artifacts.t2) ++ "\n" ++
  "   - Sketches (Tier 3): " ++ toString (artifactOr a Artifacts.t3) ++ "\n\n" ++
  "**INSTRUCTIONS:**\n" ++
  "1.  **Archetype Match:** Analyze the combination of \x27Fate\x27 (Timeline) and \x27Effort\x27 (Metrics). Choose ONE specific archetype title.\n" ++
  "    *   *Examples: \"The Enigmatic Recluse\", \"The Market Darling\", \"The Radical Iconoclast\", \"The Institutional Pillar\", \"The Tragic Genius\".*\n" ++
  "2.  **Real-World Parallel:** Identify a real artist who had a similar trajectory.\n" ++
  "    *   *Examples: Basquiat (Fast rise, tragic end), Duchamp (Intellectual, institutional critique), Jeff Koons (Market dominance).*\n" ++
  "3.  **Narrative Synthesis:** Write a 3-sentence editorial critique.\n" ++
  "    *   *Sentence 1:* Summarize their origin and early struggles/successes based on the 20s event.\n" ++
  "    *   *Sentence 2:* Analyze their mid-career pivot and production style (heavy on Masterpieces vs. Commercial work).\n" ++
  "    *   *Sentence 3:* Conclude with their final legacy status based on the 60s event and final Historical score.\n\n" ++
  "**TONE:** Cold, sophisticated, academic, and slightly brutal. \"Editorial Brutalism\".\n\n" ++
  "**OUTPUT FORMAT:** Return ONLY valid JSON.\n" ++
  "\x7b\n  \"archetype\": \"STRING (e.g. THE MARKET DARLING)\",\n  \"match\": \"STRING (e.g. Jeff Koons)\",\n  \"narrative\": \"STRING (The 3-sentence critique)\"\n\x7d\n"

/-- Embedding of `generateAnalysisPrompt` (host root, lines 214-254)
applied to the raw guest payload.  The template interpolations perform
unguarded member accesses: `data.metrics.inst` throws a `TypeError` when
`data` itself or `data.metrics` is absent, and `data.timeline[0]` throws
when `data.timeline` is absent; those throws are modelled as
`Except.error`.  The `timeline` elements and `artifacts` accesses use
optional chaining and cannot throw. -/
def generateAnalysisPrompt (data : Option RawPayload) : Except Unit String :=
  match data with
  | none => Except.error ()
  | some d =>
    match d.metrics with
    | none => Except.error ()
    | some m =>
      match d.timeline with
      | none => Except.error ()
      | some tl => Except.ok (analysisPromptText m tl d.artifacts)

/-- Outcome of the `ai.models.generateContent` call: the response text, or
a thrown error (network failure, service error, missing credential). -/
inductive SvcResult where
  | ok (text : String)
  | err
deriving DecidableEq, Repr

/-- The fallback report built in the `catch` branch of `handleMessage`
(host root, lines 312-319). -/
def fallbackReport : Report :=
  { archetype := "DATA FRAGMENTED",
    matchName := "Unknown Entity",
    narrative := "The artist\x27s trajectory was too volatile to record. The signal was lost in the void, leaving only scattered metadata." }

/-- The body of the `try` block of `handleMessage`: build the prompt,
call the service, and `JSON.parse` the response text into a report.
`parse` is the environment JSON parser (`none` models a parse throw on
non-JSON text, or a non-object result).  Any step failing means the
`catch` branch runs (`none`). -/
def reportAttempt (parse : String → Option Report) (promptResult : Except Unit String)
    (svc : SvcResult) : Option Report :=
  match promptResult with
  | Except.error _ => none
  | Except.ok _ =>
    match svc with
    | SvcResult.err => none
    | SvcResult.ok text => parse text

/-- A message event received by the host from `window.addEventListener`:
`event.data.type` (absent when the data object has no such property) and
`event.data.payload` as the host reads them. -/
structure HostMsg where
  type : Option String
  payload : Option RawPayload
deriving DecidableEq, Repr

/-- Embedding of `handleMessage` (host root, lines 287-323), returning the
list of messages the handler posts to the guest.  Only events whose
`data.type` is exactly `"GAME_OVER"` do anything.  For those, the `try`
block builds the prompt from the raw payload, calls the service and parses
the response; on success the parsed report is posted (guarded by the
iframe `contentWindow` existing, `guestPresent`), and on any thrown error
the `catch` branch posts the fixed fallback report under the same guard. -/
def handleMessage (guestPresent : Bool) (parse : String → Option Report)
    (svc : SvcResult) (msg : HostMsg) : List SentMsg :=
  if msg.type = some "GAME_OVER" then
    match reportAttempt parse (generateAnalysisPrompt msg.payload) svc with
    | some report => if guestPresent then [SentMsg.reportGenerated report] else []
    | none => if guestPresent then [SentMsg.reportGenerated fallbackReport] else []
  else []

/-- A ten-landmark hand whose reference landmark (index 9) sits at
`x = 1/4`. -/
def sampleLandmarks : List Landmark :=
  [⟨0, 0⟩, ⟨0, 0⟩, ⟨0, 0⟩, ⟨0, 0⟩, ⟨0, 0⟩, ⟨0, 0⟩, ⟨0, 0⟩, ⟨0, 0⟩, ⟨0, 0⟩,
   ⟨1/4, 1/2⟩]

/-- An environment JSON parser that always throws (models a service
response that is not valid JSON). -/
def noParse : String → Option Report := fun _ => none

/-- A concrete parsed report, as in the end-to-end scenario of the spec. -/
def sampleReport : Report :=
  { archetype := "THE INSTITUTIONAL PILLAR",
    matchName := "Ad Reinhardt",
    narrative := "A fixture of the institution." }

/-- An environment JSON parser that succeeds with `sampleReport` (models a
service response carrying valid JSON of the declared shape). -/
def parseSample : String → Option Report := fun _ => some sampleReport

/-- A structurally complete `GAME_OVER` payload, as in the end-to-end
scenario of the spec. -/
def validPayload : RawPayload :=
  { metrics := some ⟨80, 20, 90, 70, 10⟩,
    timeline := some [⟨"studied at academy"⟩, ⟨"rejected market"⟩, ⟨"retrospective exhibit"⟩],
    artifacts := some ⟨12, 3, 40⟩ }

/-- Claim C1: for every hand frame whose reference landmark (index 9) is
present with x-coordinate `v`, the normalizer emits the control signal
`x = (1 - v - 0.5) * 2` with `active = true`; for a NoHand frame (an
absent or empty detection) it emits `x = 0` with `active = false`. -/
theorem normalize_hand_and_nohand (lms : List Landmark) (rest : List (List Landmark))
    (lm : Landmark) (h : lms[9]? = some lm) :
    onResultsEmit true ⟨some (lms :: rest)⟩ = some ⟨(1 - lm.x - 0.5) * 2, true⟩ ∧
    onResultsEmit true ⟨some []⟩ = some ⟨0, false⟩ ∧
    onResultsEmit true ⟨none⟩ = some ⟨0, false⟩ := by
  refine ⟨?_, rfl, rfl⟩
  simp [onResultsEmit, h]

/-- Witness for `normalize_hand_and_nohand` at a concrete ten-landmark
hand with the reference landmark at `x = 1/4`. -/
theorem normalize_hand_and_nohand_witness :
    onResultsEmit true ⟨some [sampleLandmarks]⟩ = some ⟨(1 - (1 : ℚ)/4 - 0.5) * 2, true⟩ ∧
    onResultsEmit true ⟨some []⟩ = some ⟨0, false⟩ ∧
    onResultsEmit true ⟨none⟩ = some ⟨0, false⟩ :=
  normalize_hand_and_nohand sampleLandmarks [] ⟨1/4, 1/2⟩ rfl

/-- Claim C2 as stated is false: a non-empty detection whose hand is
missing landmark index 9 does NOT produce the control signal
`(0, false)` — the guarded block is skipped and no `onInput` call is made
at all, unlike the empty-detection branch. -/
theorem malformed_frame_counterexample :
    onResultsEmit true ⟨some [[]]⟩ = none ∧
    onResultsEmit true ⟨some [[]]⟩ ≠ some ⟨0, false⟩ := by decide

/-- Claim C2 amended: for every frame with a non-empty hand detection in
which landmark index 9 is absent, the handler emits no control signal at
all (no `onInput` call for that frame, so the previously delivered signal
simply persists); this differs from an empty detection, which emits
`(0, false)`. -/
theorem malformed_frame_emits_nothing (c : Bool) (lms : List Landmark)
    (rest : List (List Landmark)) (h : lms[9]? = none) :
    onResultsEmit c ⟨some (lms :: rest)⟩ = none := by
  cases c <;> simp [onResultsEmit, h]

/-- Witness for `malformed_frame_emits_nothing` at a one-landmark hand. -/
theorem malformed_frame_emits_nothing_witness :
    onResultsEmit true ⟨some [[⟨0, 0⟩]]⟩ = none :=
  malformed_frame_emits_nothing true [⟨0, 0⟩] [] rfl

/-- The camera effect never changes the `isActive` flag of the context
(it only creates or clears the camera handle). -/
theorem cameraEffect_preserves_isActive (w : Bool) (s : HCState) :
    (cameraEffect w s).1.isActive = s.isActive := by
  obtain ⟨sl, ha, vi, ca, ac⟩ := s
  revert w sl ha vi ca ac
  decide

/-- Claim C8: running the camera effect while already Tracking (camera
handle present, `isActive` true) is a no-op — no `createAndStart`, no
`stop`, no state change; and running it while not Tracking (no camera
handle, `isActive` false) is likewise a no-op. -/
theorem tracking_activation_idempotent (w : Bool) (s : HCState) :
    (s.isActive = true → s.camera = true → cameraEffect w s = (s, [])) ∧
    (s.isActive = false → s.camera = false → cameraEffect w s = (s, [])) := by
  obtain ⟨sl, ha, vi, ca, ac⟩ := s
  revert w sl ha vi ca ac
  decide

/-- Witness for `tracking_activation_idempotent` at concrete contexts. -/
theorem tracking_activation_idempotent_witness :
    cameraEffect true ⟨true, true, true, true, true⟩ =
      (⟨true, true, true, true, true⟩, []) ∧
    cameraEffect true ⟨true, true, true, false, false⟩ =
      (⟨true, true, true, false, false⟩, []) :=
  ⟨(tracking_activation_idempotent true ⟨true, true, true, true, true⟩).1 rfl rfl,
   (tracking_activation_idempotent true ⟨true, true, true, false, false⟩).2 rfl rfl⟩

/-- Claim C7: after a tracking session is deactivated, a per-frame
callback that still arrives sends no input message to the guest: with
`isActive` false the component body returns `null`, so the canvas is
unmounted and `onResults` returns before reaching `onInput`; no
`INPUT_UPDATE` is posted, whatever the frame contains. -/
theorem no_input_after_deactivate (w g : Bool) (s : HCState) (r : HandResults) :
    frameMessages g (deactivate w s).1 r = [] := by
  have h : (deactivate w s).1.isActive = false := by
    simpa [deactivate] using
      cameraEffect_preserves_isActive w { s with isActive := false }
  simp [frameMessages, onResultsEmit, h]

/-- Claim C10: when the guest iframe content window is absent at send
time, the host silently drops the message: a resolving completion cycle
posts nothing (for any service outcome, success or failure), and a
per-frame input posts nothing; the handlers return normally with no
error, and no queue or retry exists in the model. -/
theorem guest_absent_messages_dropped (parse : String → Option Report)
    (svc : SvcResult) (m : HostMsg) (sig : ControlSignal) :
    handleMessage false parse svc m = [] ∧ handleHandInput false sig = [] := by
  refine ⟨?_, rfl⟩
  unfold handleMessage
  split
  · cases reportAttempt parse (generateAnalysisPrompt m.payload) svc <;> rfl
  · rfl

/-- Claim C3 as stated is false at a completion cycle whose report
generation fails while the guest content window is absent: nothing at all
is delivered, not the literal fallback report. -/
theorem report_failure_fallback_counterexample :
    handleMessage false noParse SvcResult.err ⟨some "GAME_OVER", none⟩ = [] ∧
    ([] : List SentMsg) ≠ [SentMsg.reportGenerated fallbackReport] := by decide

/-- Claim C3 amended: on any report-generation failure (thrown prompt
build, service error, or non-JSON/unparseable response) the completion
handler never propagates the error — it runs to completion — and, when
the guest content window is present at send time, delivers exactly the
literal fallback report. -/
theorem report_failure_fallback (parse : String → Option Report) (svc : SvcResult)
    (p : Option RawPayload)
    (h : reportAttempt parse (generateAnalysisPrompt p) svc = none) :
    handleMessage true parse svc ⟨some "GAME_OVER", p⟩ =
      [SentMsg.reportGenerated fallbackReport] := by
  simp [handleMessage, h]

/-- Witness for `report_failure_fallback`: service throws on a payload
with no metrics and no timeline. -/
theorem report_failure_fallback_witness :
    handleMessage true noParse SvcResult.err ⟨some "GAME_OVER", some ⟨none, none, none⟩⟩ =
      [SentMsg.reportGenerated fallbackReport] :=
  report_failure_fallback noParse SvcResult.err (some ⟨none, none, none⟩) (by decide)

/-- Claim C4 as stated is false: a completion cycle that resolves with a
successfully parsed report while the guest content window is absent sends
zero `REPORT_GENERATED` messages, not exactly one. -/
theorem report_exactly_once_counterexample :
    handleMessage false parseSample (SvcResult.ok "json")
      ⟨some "GAME_OVER", some validPayload⟩ = [] := by decide

/-- Claim C4 amended: for every `GAME_OVER` event, provided the guest
content window is present when the exchange resolves, exactly one
`REPORT_GENERATED` message is sent — carrying the parsed report when the
service response parses as valid JSON, and the fallback report otherwise;
when the window is absent, zero messages are sent. -/
theorem report_exactly_once_when_guest_present (parse : String → Option Report)
    (svc : SvcResult) (p : Option RawPayload) :
    handleMessage true parse svc ⟨some "GAME_OVER", p⟩ =
      [SentMsg.reportGenerated
        ((reportAttempt parse (generateAnalysisPrompt p) svc).getD fallbackReport)] := by
  unfold handleMessage
  cases h : reportAttempt parse (generateAnalysisPrompt p) svc <;> simp [h]

/-- Claim C5 as stated is false: a guest message tagged `GAME_OVER` whose
payload is structurally invalid (here: absent entirely) is NOT ignored —
the completion handler runs on the unvalidated payload, the prompt build
throws, and the host reacts by posting the fallback report. -/
theorem unvalidated_payload_counterexample :
    handleMessage true noParse SvcResult.err ⟨some "GAME_OVER", none⟩ =
      [SentMsg.reportGenerated fallbackReport] ∧
    handleMessage true noParse SvcResult.err ⟨some "GAME_OVER", none⟩ ≠ [] := by decide

/-- Claim C5 amended: a guest message whose type tag is not `GAME_OVER`
produces no host reaction at all; a message tagged `GAME_OVER` invokes
the completion handler on its raw, structurally unvalidated payload —
in particular a missing payload is not ignored but flows into the failure
path, producing the fallback report when the guest window is present. -/
theorem unrecognized_tag_ignored (g : Bool) (parse : String → Option Report)
    (svc : SvcResult) (m : HostMsg) :
    (m.type ≠ some "GAME_OVER" → handleMessage g parse svc m = []) ∧
    (m.type = some "GAME_OVER" → m.payload = none →
      handleMessage true parse svc m = [SentMsg.reportGenerated fallbackReport]) := by
  obtain ⟨ty, pl⟩ := m
  constructor
  · intro h
    simp only [handleMessage]
    rw [if_neg h]
  · intro h hp
    simp only at h hp
    subst h
    subst hp
    rfl

/-- Witness for `unrecognized_tag_ignored`: an unrecognized tag is
ignored, and a `GAME_OVER` with missing payload yields the fallback. -/
theorem unrecognized_tag_ignored_witness :
    handleMessage true noParse SvcResult.err ⟨some "PING", some validPayload⟩ = [] ∧
    handleMessage true noParse SvcResult.err ⟨some "GAME_OVER", none⟩ =
      [SentMsg.reportGenerated fallbackReport] :=
  ⟨(unrecognized_tag_ignored true noParse SvcResult.err
      ⟨some "PING", some validPayload⟩).1 (by decide),
   (unrecognized_tag_ignored true noParse SvcResult.err
      ⟨some "GAME_OVER", none⟩).2 rfl rfl⟩

/-- Claim C9: a pause change to `true` at time `t0` followed by a change
to `false` at time `t1`, with `t1` inside the 100ms debounce window of
`t0`, results in the guest observing exactly one pause message, carrying
the final value `false`; the stale intermediate `true` is never
delivered. -/
theorem debounced_pause_last_value_wins (t0 t1 : Nat) (h : t1 < t0 + 100) :
    (flushPause true (runPauseChanges true [(t0, true), (t1, false)] pauseInit)).sent =
      [SentMsg.pauseGame false] := by
  have hn : ¬ (t0 + 100 ≤ t1) := by omega
  simp [runPauseChanges, uiChange, firePending, pauseInit, flushPause, hn]

/-- Witness for `debounced_pause_last_value_wins` at times 0 and 50. -/
theorem debounced_pause_last_value_wins_witness :
    (flushPause true (runPauseChanges true [(0, true), (50, false)] pauseInit)).sent =
      [SentMsg.pauseGame false] :=
  debounced_pause_last_value_wins 0 50 (by decide)

/-- The three script URLs are pairwise distinct. -/
theorem script_urls_nodup : SCRIPT_URLS.Nodup := by decide

/-- A URL at position `n` of `SCRIPT_URLS` does not occur among the
earlier ones. -/
theorem script_urls_get_not_mem_take (n : Nat) (u : String)
    (h : SCRIPT_URLS[n]? = some u) : u ∉ SCRIPT_URLS.take n := by
  match n with
  | 0 => simp
  | 1 =>
      simp only [SCRIPT_URLS] at h
      simp only [List.getElem?_cons_succ, List.getElem?_cons_zero, Option.some.injEq] at h
      subst h
      decide
  | 2 =>
      simp only [SCRIPT_URLS] at h
      simp only [List.getElem?_cons_succ, List.getElem?_cons_zero, Option.some.injEq] at h
      subst h
      decide
  | n + 3 =>
      simp only [SCRIPT_URLS, List.getElem?_cons_succ, List.getElem?_nil] at h
      exact absurd h (by simp)

/-- Taking one more element of `SCRIPT_URLS` appends exactly the URL at
that position. -/
theorem script_urls_take_succ (n : Nat) (u : String) (h : SCRIPT_URLS[n]? = some u) :
    SCRIPT_URLS.take (n + 1) = SCRIPT_URLS.take n ++ [u] := by
  rw [List.take_succ, h]
  rfl

/-- A member of the `(n+1)`-prefix that is not in the `n`-prefix is the
URL at position `n`. -/
theorem mem_take_succ_eq (n : Nat) (u v : String) (hg : SCRIPT_URLS[n]? = some v)
    (hmem : u ∈ SCRIPT_URLS.take (n + 1)) (hnot : u ∉ SCRIPT_URLS.take n) : u = v := by
  rw [script_urls_take_succ n v hg] at hmem
  rcases List.mem_append.1 hmem with h | h
  · exact absurd h hnot
  · simpa using h

/-- Reachability invariant of a browser state holding a single
`initScripts` run: the appended script tags are exactly the first `pc`
URLs (`pc + 1` while the run awaits the next one, whose tag it has just
appended), and the loaded set is exactly the first `pc` URLs. -/
def singleTaskInv (s : LoaderState) : Prop :=
  ∃ t : TaskState, s.tasks = [t] ∧
    ((t.waiting = none ∧ s.tags = SCRIPT_URLS.take t.pc ∧
        s.loaded = SCRIPT_URLS.take t.pc) ∨
     (∃ u, t.waiting = some u ∧ SCRIPT_URLS[t.pc]? = some u ∧
        s.tags = SCRIPT_URLS.take (t.pc + 1) ∧ s.loaded = SCRIPT_URLS.take t.pc))

/-- A scheduler step of the single run preserves the invariant. -/
theorem stepTask_preserves_inv (s : LoaderState) (i : Nat) (h : singleTaskInv s) :
    singleTaskInv (stepTask s i) := by
  obtain ⟨t, ht, hcase⟩ := h
  obtain ⟨tags, loaded, tasks⟩ := s
  simp only at ht
  subst ht
  cases i with
  | succ j =>
      simp only [stepTask, List.getElem?_cons_succ, List.getElem?_nil]
      exact ⟨t, rfl, hcase⟩
  | zero =>
      obtain ⟨pc, w⟩ := t
      cases w with
      | some u =>
          simp only [stepTask, List.getElem?_cons_zero, Option.isSome_some, if_true]
          exact ⟨⟨pc, some u⟩, rfl, hcase⟩
      | none =>
          rcases hcase with ⟨-, htags, hload⟩ | ⟨u, hu, -⟩
          · simp only at htags hload
            subst htags
            subst hload
            cases hg : SCRIPT_URLS[pc]? with
            | none =>
                simp only [stepTask, List.getElem?_cons_zero, Option.isSome_none,
                  Bool.false_eq_true, if_false, hg]
                exact ⟨⟨pc, none⟩, rfl, Or.inl ⟨rfl, rfl, rfl⟩⟩
            | some u =>
                have hnot : u ∉ SCRIPT_URLS.take pc := script_urls_get_not_mem_take pc u hg
                simp only [stepTask, List.getElem?_cons_zero, Option.isSome_none,
                  Bool.false_eq_true, if_false, hg]
                rw [if_neg hnot]
                exact ⟨⟨pc, some u⟩, rfl,
                  Or.inr ⟨u, rfl, hg, (script_urls_take_succ pc u hg).symm, rfl⟩⟩
          · exact absurd hu (by simp)

/-- An `onload` event preserves the invariant. -/
theorem onloadEvent_preserves_inv (s : LoaderState) (u : String) (h : singleTaskInv s) :
    singleTaskInv (onloadEvent s u) := by
  obtain ⟨t, ht, hcase⟩ := h
  obtain ⟨tags, loaded, tasks⟩ := s
  simp only at ht
  subst ht
  obtain ⟨pc, w⟩ := t
  unfold onloadEvent
  rcases hcase with ⟨hw, htags, hload⟩ | ⟨v, hw, hg, htags, hload⟩ <;>
    simp only at hw htags hload <;> subst hw <;> subst htags <;> subst hload
  · rw [if_neg (by simp only; tauto)]
    exact ⟨⟨pc, none⟩, rfl, Or.inl ⟨rfl, rfl, rfl⟩⟩
  · by_cases hmem : u ∈ SCRIPT_URLS.take (pc + 1) ∧ u ∉ SCRIPT_URLS.take pc
    · have huv : u = v := mem_take_succ_eq pc u v hg hmem.1 hmem.2
      subst huv
      rw [if_pos hmem]
      refine ⟨⟨pc + 1, none⟩, by simp, Or.inl ⟨rfl, rfl, ?_⟩⟩
      simp only
      rw [script_urls_take_succ pc u hg]
    · rw [if_neg hmem]
      exact ⟨⟨pc, some v⟩, rfl, Or.inr ⟨v, rfl, hg, rfl, rfl⟩⟩

/-- Every event trace preserves the invariant. -/
theorem runLoader_preserves_inv (es : List LoadEvent) (s : LoaderState)
    (h : singleTaskInv s) : singleTaskInv (runLoader es s) := by
  induction es generalizing s with
  | nil => exact h
  | cons e es ih =>
      cases e with
      | step i => exact ih _ (stepTask_preserves_inv s i h)
      | onload u => exact ih _ (onloadEvent_preserves_inv s u h)

/-- The fresh single-run state satisfies the invariant. -/
theorem loaderInit1_inv : singleTaskInv loaderInit1 :=
  ⟨⟨0, none⟩, rfl, Or.inl ⟨rfl, rfl, rfl⟩⟩

/-- A fully sequential trace of one `initScripts` run: each URL is
appended and allowed to finish loading before the next step. -/
def seqTrace : List LoadEvent :=
  [LoadEvent.step 0,
   LoadEvent.onload "https://cdn.jsdelivr.net/npm/@mediapipe/camera_utils/camera_utils.js",
   LoadEvent.step 0,
   LoadEvent.onload "https://cdn.jsdelivr.net/npm/@mediapipe/drawing_utils/drawing_utils.js",
   LoadEvent.step 0,
   LoadEvent.onload "https://cdn.jsdelivr.net/npm/@mediapipe/hands/hands.js"]

/-- An interleaving of two concurrent `initScripts` runs: the first run
appends the camera_utils tag and blocks on its download; the second run
then finds that tag already in the document, resolves that step
immediately, and drives the remaining two URLs to completion while
camera_utils is still in flight. -/
def raceTrace : List LoadEvent :=
  [LoadEvent.step 0, LoadEvent.step 1, LoadEvent.step 1,
   LoadEvent.onload "https://cdn.jsdelivr.net/npm/@mediapipe/drawing_utils/drawing_utils.js",
   LoadEvent.step 1,
   LoadEvent.onload "https://cdn.jsdelivr.net/npm/@mediapipe/hands/hands.js"]

/-- Claim C6 as stated is false: with two concurrent invocations over the
same URL set, the trace `raceTrace` leaves the second run fully resolved
(program counter `SCRIPT_URLS.length`, not awaiting anything, so its
`initScripts` promise chain has resolved and `setScriptsLoaded(true)`
fired) while the camera_utils module — whose script tag the first run
appended — has not finished loading: `loadScript` checks only for the
presence of a script tag, not for completed registration. -/
theorem capability_loader_concurrent_counterexample :
    (runLoader raceTrace loaderInit2).tasks[1]? = some ⟨SCRIPT_URLS.length, none⟩ ∧
    "https://cdn.jsdelivr.net/npm/@mediapipe/camera_utils/camera_utils.js" ∈
      (runLoader raceTrace loaderInit2).tags ∧
    "https://cdn.jsdelivr.net/npm/@mediapipe/camera_utils/camera_utils.js" ∉
      (runLoader raceTrace loaderInit2).loaded := by decide

/-- Claim C6 amended: a single (non-concurrent) invocation of the loader
loads the module URLs strictly in sequence — in every reachable state the
appended script tags form a prefix of the URL list in source order — never
appends a URL twice (a URL whose tag is already in the document is treated
as satisfied and skipped), and resolves only when all modules have
finished loading: whenever the run has passed all
`SCRIPT_URLS.length` steps, every URL has completed loading.  (Concurrent
invocations do not enjoy this: see the counterexample — a second
invocation that finds another invocation's tag resolves without waiting
for that module.) -/
theorem capability_loader_sequential_single_run (es : List LoadEvent) :
    (∃ k, (runLoader es loaderInit1).tags = SCRIPT_URLS.take k) ∧
    (runLoader es loaderInit1).tags.Nodup ∧
    ∀ t ∈ (runLoader es loaderInit1).tasks,
      (runLoader es loaderInit1).loaded = SCRIPT_URLS.take t.pc ∧
      (SCRIPT_URLS.length ≤ t.pc → (runLoader es loaderInit1).loaded = SCRIPT_URLS) := by
  obtain ⟨t, ht, hcase⟩ := runLoader_preserves_inv es loaderInit1 loaderInit1_inv
  have htags : ∃ k, (runLoader es loaderInit1).tags = SCRIPT_URLS.take k := by
    rcases hcase with ⟨-, h1, -⟩ | ⟨u, -, -, h1, -⟩
    exacts [⟨t.pc, h1⟩, ⟨t.pc + 1, h1⟩]
  refine ⟨htags, ?_, ?_⟩
  · obtain ⟨k, hk⟩ := htags
    rw [hk]
    exact List.Nodup.sublist (List.take_sublist k SCRIPT_URLS) script_urls_nodup
  · intro t' ht'
    rw [ht] at ht'
    have htt : t' = t := by simpa using ht'
    subst htt
    have hload : (runLoader es loaderInit1).loaded = SCRIPT_URLS.take t'.pc := by
      rcases hcase with ⟨-, -, h2⟩ | ⟨u, -, -, -, h2⟩ <;> exact h2
    refine ⟨hload, fun hpc => ?_⟩
    rw [hload, List.take_of_length_le hpc]

/-- Witness for `capability_loader_sequential_single_run`: on the fully
sequential trace the run ends resolved with all three modules loaded. -/
theorem capability_loader_sequential_single_run_witness :
    (runLoader seqTrace loaderInit1).loaded = SCRIPT_URLS := by
  have h := capability_loader_sequential_single_run seqTrace
  exact (h.2.2 ⟨3, none⟩ (by decide)).2 (by decide)
